import Mathlib

/-!
Verification of the evaluation and grading engine of the `agent-skills`
repository (`evals/run_eval.py`, `evals/graders/*.py`) against its design
specification.

Modelling conventions (shallow embedding of the Python source):
* Python `float` arithmetic is modelled exactly over `Rat`.
* Python `dict[str, T]` values are modelled as association lists
  `List (String × T)`; where the source builds a dict by comprehension
  (later duplicate keys overwrite earlier ones) the lookup is taken over the
  reversed list.
* Python's substring test `needle in hay` is `pyIn`.
* `json.loads` is an external library function; functions that call it take
  it as an explicit argument, so every theorem is stated for the parse
  results the real library could return.
* Optional / nullable fields become `Option`; Python exceptions become
  `Except String` with the carried string naming the exception.
-/

/-- Python `needle in hay` substring test on strings. -/
def pyIn (needle hay : String) : Bool :=
  hay.toList.tails.any (fun t => needle.toList.isPrefixOf t)

/-- Truthiness of a Python `str | None` value (`if self.error:`):
`None` and the empty string are falsy, every other string is truthy. -/
def pyTruthy : Option String → Bool
  | none => false
  | some s => s ≠ ""

/-- JSON values, used for `details` dictionaries and for parsed judge
responses.  Numbers are modelled exactly as rationals. -/
inductive JValue where
  | jnull : JValue
  | jbool (b : Bool) : JValue
  | jnum (q : Rat) : JValue
  | jstr (s : String) : JValue
  | jarr (xs : List JValue) : JValue
  | jobj (fields : List (String × JValue)) : JValue

/-- A JSON object: what `json.loads` returns for a text that starts with
an opening brace and ends with a closing brace. -/
abbrev JObj := List (String × JValue)

/-- `graders/common.py`, `GraderResult`: result of a single grader check. -/
structure GraderResult where
  name : String
  passed : Bool
  message : String := ""
  details : List (String × JValue) := []

/-- `run_eval.py`, `TestCase`: a single test case from a dataset. -/
structure TestCase where
  id : String
  prompt : String
  scaffold : String
  expected_checks : List String
  should_trigger : Bool
  notes : String := ""
deriving DecidableEq, Repr

/-- `run_eval.py`, `AgentOutput`: captured output from agent execution. -/
structure AgentOutput where
  raw_output : String
  exit_code : Int
  duration_seconds : Rat
  files_modified : List String := []
  files_created : List String := []
  commands_executed : List String := []
deriving DecidableEq, Repr

/-- `run_eval.py`, `RubricScore`: score from LLM-as-judge evaluation.  The
four dimension fields and `overall_notes` hold whatever JSON values were
parsed out of the judge response (the source stores them untyped). -/
structure RubricScore where
  security_practices : JValue
  user_consent : JValue
  framework_alignment : JValue
  instruction_following : JValue
  overall_notes : JValue
  weighted_score : Rat

/-- `run_eval.py`, `EvalResult`: result of evaluating a single test case. -/
structure EvalResult where
  test_case : TestCase
  grader_results : List GraderResult
  agent_output : Option AgentOutput := none
  rubric_score : Option RubricScore := none
  duration_seconds : Rat := 0
  error : Option String := none

/-- `EvalResult.passed` (run_eval.py lines 109-121): false on a truthy
error; unconditionally true for negative cases (`should_trigger = False`);
otherwise false exactly when some grader result named in `expected_checks`
failed (the `for` loop with an early `return False`). -/
def EvalResult.passed (r : EvalResult) : Bool :=
  if pyTruthy r.error then false
  else if !r.test_case.should_trigger then true
  else !(r.grader_results.any
    (fun g => r.test_case.expected_checks.contains g.name && !g.passed))

/-- `EvalResult.score` (run_eval.py lines 123-129): 0 for an empty result
list, otherwise the fraction of all grader results that passed. -/
def EvalResult.score (r : EvalResult) : Rat :=
  if r.grader_results.isEmpty then 0
  else (r.grader_results.countP (fun g => g.passed) : Rat) /
    (r.grader_results.length : Rat)

/-- Helper: the early-return loop in `EvalResult.passed` reports a failure
on the filtered list (expected checks only) exactly when it does on the
whole list. -/
theorem any_failing_filter (ec : List String) (l : List GraderResult) :
    ((l.filter fun g => ec.contains g.name).any fun g => ec.contains g.name && !g.passed)
      = l.any fun g => ec.contains g.name && !g.passed := by
  induction l with
  | nil => rfl
  | cons g t ih =>
    by_cases hc : g.name ∈ ec <;> simp [List.filter_cons, hc, ih]

def negCaseEmptyErr : EvalResult :=
  { test_case :=
      { id := "t-neg", prompt := "p", scaffold := "base",
        expected_checks := ["sdk_installed"], should_trigger := false },
    grader_results := [], error := some "" }

/-- C1 counterexample: an `EvalResult` whose `error` field is set (to the
empty string, e.g. from `str(e)` of an exception with an empty message) but
whose `passed` is `true`, because `if self.error:` treats the empty string
as falsy.  The claim says a set error field forces `passed = false`. -/
theorem passed_set_error_counterexample :
    negCaseEmptyErr.error = some "" ∧ negCaseEmptyErr.passed = true :=
  ⟨rfl, rfl⟩

/-- C1 (amended): if the error field is set to a NON-EMPTY string, `passed`
is false (an error field holding the empty string is treated as no error);
otherwise for a negative case (`should_trigger = false`) `passed` is true
unconditionally; otherwise `passed` is true iff every grader result named
in `expected_checks` passed, and results named outside `expected_checks`
never affect `passed` (filtering them away leaves `passed` unchanged). -/
theorem passed_trichotomy (r : EvalResult) :
    (pyTruthy r.error = true → r.passed = false) ∧
    (pyTruthy r.error = false → r.test_case.should_trigger = false →
      r.passed = true) ∧
    (pyTruthy r.error = false → r.test_case.should_trigger = true →
      (r.passed = true ↔
        ∀ g ∈ r.grader_results,
          g.name ∈ r.test_case.expected_checks → g.passed = true)) ∧
    r.passed = EvalResult.passed
      { r with
        grader_results := r.grader_results.filter
          (fun g => r.test_case.expected_checks.contains g.name) } := by
  refine ⟨?_, ?_, ?_, ?_⟩
  · intro h; simp [EvalResult.passed, h]
  · intro h1 h2; simp [EvalResult.passed, h1, h2]
  · intro h1 h2
    simp [EvalResult.passed, h1, h2]
  · by_cases h1 : pyTruthy r.error = true
    · simp [EvalResult.passed, h1]
    · by_cases h2 : r.test_case.should_trigger = true
      · simp only [Bool.not_eq_true] at h1
        simp [EvalResult.passed, h1, h2,
          any_failing_filter r.test_case.expected_checks r.grader_results]
      · simp only [Bool.not_eq_true] at h1 h2
        simp [EvalResult.passed, h1, h2]

def passedWitnessErr : EvalResult :=
  { test_case :=
      { id := "t1", prompt := "p", scaffold := "base",
        expected_checks := [], should_trigger := true },
    grader_results := [], error := some "scaffold not found" }

def passedWitnessPos : EvalResult :=
  { test_case :=
      { id := "t2", prompt := "p", scaffold := "base",
        expected_checks := ["sdk_installed"], should_trigger := true },
    grader_results :=
      [ { name := "sdk_installed", passed := true },
        { name := "login_component", passed := false } ] }

theorem passed_trichotomy_witness :
    passedWitnessErr.passed = false ∧ passedWitnessPos.passed = true :=
  ⟨(passed_trichotomy passedWitnessErr).1 rfl,
   ((passed_trichotomy passedWitnessPos).2.2.1 rfl rfl).mpr (by decide)⟩

/-- C2: `score` equals the number of passing grader results divided by the
total number of grader results (all of them, not only the expected ones;
in `Rat`, the empty case `0 / 0` also evaluates to `0`), and is exactly 0
on an empty result list. -/
theorem score_spec (r : EvalResult) :
    r.score = (r.grader_results.countP (fun g => g.passed) : Rat) /
      (r.grader_results.length : Rat) ∧
    (r.grader_results = [] → r.score = 0) := by
  constructor
  · cases h : r.grader_results with
    | nil => simp [EvalResult.score, h]
    | cons a t => simp [EvalResult.score, h]
  · intro h; simp [EvalResult.score, h]

def scoreWitnessEmpty : EvalResult :=
  { test_case :=
      { id := "t3", prompt := "p", scaffold := "base",
        expected_checks := [], should_trigger := true },
    grader_results := [] }

theorem score_spec_witness : scoreWitnessEmpty.score = 0 :=
  (score_spec scoreWitnessEmpty).2 rfl

/-- C10: with no (truthy) error and `should_trigger = true`, if no grader
result bears a name listed in `expected_checks` — in particular when the
result list is empty or an expected check name is never produced — the
failure loop finds nothing and `passed` is true. -/
theorem passed_vacuous (r : EvalResult)
    (herr : pyTruthy r.error = false)
    (htrig : r.test_case.should_trigger = true)
    (hnone : ∀ g ∈ r.grader_results, g.name ∉ r.test_case.expected_checks) :
    r.passed = true := by
  simp [EvalResult.passed, herr, htrig]
  intro g hg hmem
  exact absurd hmem (hnone g hg)

def vacuousWitnessRes : EvalResult :=
  { test_case :=
      { id := "t4", prompt := "p", scaffold := "base",
        expected_checks := ["metadata_present"], should_trigger := true },
    grader_results := [ { name := "framework_detected", passed := false } ] }

theorem passed_vacuous_witness :
    vacuousWitnessRes.passed = true ∧ vacuousWitnessRes.score = 0 :=
  ⟨passed_vacuous vacuousWitnessRes rfl rfl (by decide), by
    simp [EvalResult.score, vacuousWitnessRes]⟩

namespace LLMJudge

/-- Span located by `re.search(r'\x7b[\s\S]*\x7d', response_text)`
(run_eval.py line 383): with a greedy any-character star, the leftmost
longest match runs from the first opening brace that has a closing brace
somewhere after it up to the last closing brace of the whole text. -/
def findJsonSpan (t : String) : Option String :=
  let cs := t.toList
  match cs.findIdx? (fun c => c.toNat == 123),
        cs.reverse.findIdx? (fun c => c.toNat == 125) with
  | some i, some k =>
    let j := cs.length - 1 - k
    if i < j then some (String.mk ((cs.drop i).take (j - i + 1))) else none
  | _, _ => none

/-- Fallback `RubricScore` built when `json.loads` raises
`json.JSONDecodeError` (run_eval.py lines 390-397). -/
def fallbackScore (e : String) : RubricScore :=
  { security_practices := .jobj [("score", .jnum 3), ("reasoning", .jstr "Parse error")],
    user_consent := .jobj [("score", .jnum 3), ("reasoning", .jstr "Parse error")],
    framework_alignment := .jobj [("score", .jnum 3), ("reasoning", .jstr "Parse error")],
    instruction_following := .jobj [("score", .jnum 3), ("reasoning", .jstr "Parse error")],
    overall_notes := .jstr ("Failed to parse LLM response: " ++ e),
    weighted_score := 3 }

/-- Default dimension value `{"score": 3, "reasoning": ""}` used by
`data.get(dim, ...)` in the success path (run_eval.py lines 412-415). -/
def dimDefault : JValue :=
  .jobj [("score", .jnum 3), ("reasoning", .jstr "")]

/-- Python `data.get(dim, {}).get("score", 3)` (run_eval.py lines 406-409),
with the exceptions it can raise: `AttributeError` when `data[dim]` exists
but is not a dict, `TypeError` when the score value cannot be multiplied by
a float.  A Python bool is numeric (`True == 1`, `False == 0`). -/
def pyGetScore (data : JObj) (dim : String) : Except String Rat :=
  match (data.lookup dim).getD (.jobj []) with
  | .jobj sub =>
    match (sub.lookup "score").getD (.jnum 3) with
    | .jnum q => .ok q
    | .jbool b => .ok (if b then 1 else 0)
    | _ => .error "TypeError"
  | _ => .error "AttributeError"

/-- Success path of `_parse_response` after `json.loads` returned `data`
(run_eval.py lines 399-418): the weighted score is recomputed locally from
the per-dimension scores with the fixed weights 0.30 / 0.25 / 0.25 / 0.20,
and each missing field falls back to its default. -/
def scoreFromData (data : JObj) : Except String RubricScore :=
  match pyGetScore data "security_practices" with
  | .error e => .error e
  | .ok s1 =>
    match pyGetScore data "user_consent" with
    | .error e => .error e
    | .ok s2 =>
      match pyGetScore data "framework_alignment" with
      | .error e => .error e
      | .ok s3 =>
        match pyGetScore data "instruction_following" with
        | .error e => .error e
        | .ok s4 =>
          .ok { security_practices := (data.lookup "security_practices").getD dimDefault,
                user_consent := (data.lookup "user_consent").getD dimDefault,
                framework_alignment := (data.lookup "framework_alignment").getD dimDefault,
                instruction_following := (data.lookup "instruction_following").getD dimDefault,
                overall_notes := (data.lookup "overall_notes").getD (.jstr ""),
                weighted_score :=
                  s1 * (3/10) + s2 * (1/4) + s3 * (1/4) + s4 * (1/5) }

/-- `LLMJudge._parse_response` (run_eval.py lines 378-418), parameterised
over `json.loads` (an external library call, `loads`).  Control flow of the
source: if no JSON span is found a plain `ValueError` is raised inside the
`try`, and the `except json.JSONDecodeError` clause does NOT catch it
(`JSONDecodeError` is a subclass of `ValueError`, not the other way
around), so that error escapes; a `JSONDecodeError` from `loads` is caught
and yields the fallback score. -/
def parse_response (loads : String → Except String JObj) (t : String) :
    Except String RubricScore :=
  match findJsonSpan t with
  | none => .error "ValueError: No JSON found in response"
  | some s =>
    match loads s with
    | .error e => .ok (fallbackScore e)
    | .ok data => scoreFromData data

end LLMJudge

/-- C3 (code bug): for a judge response containing no JSON object at all,
`_parse_response` raises an uncaught `ValueError` instead of returning the
neutral fallback score — the `except json.JSONDecodeError` handler cannot
catch the plain `ValueError` raised two lines above it.  When a JSON span
IS found but `json.loads` fails, the fallback score (all dimensions 3,
weighted_score exactly 3.0, note explaining the failure) is returned as
the claim describes. -/
theorem parse_response_no_json_raises :
    (∀ loads, LLMJudge.parse_response loads "I could not evaluate this response." =
      Except.error "ValueError: No JSON found in response") ∧
    LLMJudge.parse_response (fun _ => Except.error "Expecting value: line 1 column 2 (char 1)")
      "\x7bthis is not valid JSON\x7d" =
      Except.ok (LLMJudge.fallbackScore "Expecting value: line 1 column 2 (char 1)") ∧
    (LLMJudge.fallbackScore "Expecting value: line 1 column 2 (char 1)").weighted_score = 3 :=
  ⟨fun _ => rfl, rfl, rfl⟩

/-- C4: whenever all four per-dimension score extractions succeed, the
returned `weighted_score` is exactly the locally computed sum of each
dimension score times its fixed weight (0.30, 0.25, 0.25, 0.20); no value
from the response itself is used for it. -/
theorem weighted_score_local (data : JObj) (s1 s2 s3 s4 : Rat)
    (h1 : LLMJudge.pyGetScore data "security_practices" = Except.ok s1)
    (h2 : LLMJudge.pyGetScore data "user_consent" = Except.ok s2)
    (h3 : LLMJudge.pyGetScore data "framework_alignment" = Except.ok s3)
    (h4 : LLMJudge.pyGetScore data "instruction_following" = Except.ok s4) :
    ∃ rs, LLMJudge.scoreFromData data = Except.ok rs ∧
      rs.weighted_score = s1 * (3/10) + s2 * (1/4) + s3 * (1/4) + s4 * (1/5) := by
  simp only [LLMJudge.scoreFromData, h1, h2, h3, h4]
  exact ⟨_, rfl, rfl⟩

def judgeDataWitness : JObj :=
  [("security_practices", .jobj [("score", .jnum 5), ("reasoning", .jstr "good")]),
   ("user_consent", .jobj [("score", .jnum 4)]),
   ("framework_alignment", .jobj [("score", .jnum 4)]),
   ("instruction_following", .jobj [("score", .jnum 2)]),
   ("overall_notes", .jstr "fine")]

theorem weighted_score_local_witness :
    ∃ rs, LLMJudge.scoreFromData judgeDataWitness = Except.ok rs ∧
      rs.weighted_score = 5 * (3/10) + 4 * (1/4) + 4 * (1/4) + 2 * (1/5) :=
  weighted_score_local judgeDataWitness 5 4 4 2 rfl rfl rfl rfl

/-- C9 counterexample: a judge response whose JSON object omits three of
the four dimension keys but carries a non-dict value under the remaining
one makes `_parse_response` raise (`5 .get(...)` is an `AttributeError`,
which the `except json.JSONDecodeError` clause does not catch), so
"omits one or more dimension keys implies does not raise" is false.
The `loads` argument is exactly what `json.loads` returns on this span. -/
theorem judge_missing_keys_counterexample :
    LLMJudge.parse_response
      (fun _ => Except.ok [("security_practices", JValue.jnum 5)])
      "\x7b\"security_practices\": 5\x7d" =
      Except.error "AttributeError" := rfl

/-- C9 (amended): for a parsed judge response in which every PRESENT
dimension key yields a numeric score (so omitted keys, in particular), no
exception occurs: each omitted dimension key defaults to
`{"score": 3, "reasoning": ""}` and contributes `3 ×` its weight to
`weighted_score`, and an omitted `overall_notes` defaults to `""`. -/
theorem judge_missing_keys_default (data : JObj) (s1 s2 s3 s4 : Rat)
    (h1 : LLMJudge.pyGetScore data "security_practices" = Except.ok s1)
    (h2 : LLMJudge.pyGetScore data "user_consent" = Except.ok s2)
    (h3 : LLMJudge.pyGetScore data "framework_alignment" = Except.ok s3)
    (h4 : LLMJudge.pyGetScore data "instruction_following" = Except.ok s4) :
    ∃ rs, LLMJudge.scoreFromData data = Except.ok rs ∧
      rs.weighted_score = s1 * (3/10) + s2 * (1/4) + s3 * (1/4) + s4 * (1/5) ∧
      (data.lookup "security_practices" = none →
        s1 = 3 ∧ rs.security_practices = LLMJudge.dimDefault) ∧
      (data.lookup "user_consent" = none →
        s2 = 3 ∧ rs.user_consent = LLMJudge.dimDefault) ∧
      (data.lookup "framework_alignment" = none →
        s3 = 3 ∧ rs.framework_alignment = LLMJudge.dimDefault) ∧
      (data.lookup "instruction_following" = none →
        s4 = 3 ∧ rs.instruction_following = LLMJudge.dimDefault) ∧
      (data.lookup "overall_notes" = none →
        rs.overall_notes = JValue.jstr "") := by
  simp only [LLMJudge.scoreFromData, h1, h2, h3, h4]
  refine ⟨_, rfl, rfl, ?_, ?_, ?_, ?_, ?_⟩
  · intro h
    simp [LLMJudge.pyGetScore, h] at h1
    exact ⟨h1.symm, by simp [h]⟩
  · intro h
    simp [LLMJudge.pyGetScore, h] at h2
    exact ⟨h2.symm, by simp [h]⟩
  · intro h
    simp [LLMJudge.pyGetScore, h] at h3
    exact ⟨h3.symm, by simp [h]⟩
  · intro h
    simp [LLMJudge.pyGetScore, h] at h4
    exact ⟨h4.symm, by simp [h]⟩
  · intro h
    simp [h]

theorem judge_missing_keys_default_witness :
    ∃ rs, LLMJudge.scoreFromData [] = Except.ok rs ∧ rs.weighted_score = 3 := by
  obtain ⟨rs, hok, hw, -, -, -, -, -⟩ :=
    judge_missing_keys_default [] 3 3 3 3 rfl rfl rfl rfl
  exact ⟨rs, hok, by rw [hw]; norm_num⟩

/-- Python `\s` (ASCII range: space, tab, newline, vertical tab, form
feed, carriage return). -/
def isPySpace (c : Char) : Bool :=
  c == ' ' || c == '\t' || c == '\n' || c == '\r' || c.toNat == 11 || c.toNat == 12

/-- Python `\w` (ASCII range: letters, digits, underscore). -/
def isPyWord (c : Char) : Bool := c.isAlphanum || c == '_'

/-- The quote character class used by several grader patterns: a double
or single quote (code points 34 and 39). -/
def isQuoteChar (c : Char) : Bool := c.toNat == 34 || c.toNat == 39

/-- One token of the small regular-expression fragment the graders use:
literals, a single character class, star / plus / optional / fixed-count
repetitions of a character class.  Every pattern appearing in
`graders/auth0_quickstart.py` and `graders/auth0_react.py` is a sequence
of such tokens (top-level alternation is translated as a disjunction of
searches at the use site). -/
inductive Tok where
  | lit (s : String)
  | one (p : Char → Bool)
  | star (p : Char → Bool)
  | plus (p : Char → Bool)
  | optc (p : Char → Bool)
  | rep (p : Char → Bool) (n : Nat)

/-- Match a token sequence against a prefix of `cs` (the rest of the text
is unconstrained).  Star / plus tokens range over a character class, so
backtracking only needs to try every consumption length up to the maximal
run of that class. -/
def matchToks : List Tok → List Char → Bool
  | [], _ => true
  | .lit s :: ts, cs =>
    s.toList.isPrefixOf cs && matchToks ts (cs.drop s.length)
  | .one p :: ts, cs =>
    match cs with
    | [] => false
    | c :: rest => p c && matchToks ts rest
  | .star p :: ts, cs =>
    (List.range ((cs.takeWhile p).length + 1)).any
      (fun k => matchToks ts (cs.drop k))
  | .plus p :: ts, cs =>
    (List.range ((cs.takeWhile p).length)).any
      (fun k => matchToks ts (cs.drop (k + 1)))
  | .optc p :: ts, cs =>
    matchToks ts cs ||
      (match cs with
       | [] => false
       | c :: rest => p c && matchToks ts rest)
  | .rep p n :: ts, cs =>
    ((cs.take n).length == n) && (cs.take n).all p && matchToks ts (cs.drop n)

/-- `re.search`: does the token sequence match starting at some position? -/
def reSearch (pat : List Tok) (s : String) : Bool :=
  s.toList.tails.any (fun t => matchToks pat t)

/-- A non-newline character (the regex `.` without `re.DOTALL`). -/
def isNotNl (c : Char) : Bool := !(c == '\n')

/-- A Python dict holding string values, e.g. one entry of
`ExecutionTrace.commands`. -/
abbrev PyDict := List (String × String)

/-- `graders/auth0_quickstart.py`, `ExecutionTrace`: snapshot of a skill
run. -/
structure ExecutionTrace where
  commands : List PyDict
  files_modified : List String
  files_created : List String
  env_vars_set : List (String × String)
  outputs : List String

/-- `cmd.get("command", "")` as used by every trace check. -/
def cmdStr (c : PyDict) : String := (c.lookup "command").getD ""

namespace Auth0QuickstartGrader

/-- Detection patterns of `check_framework_detected` (IGNORECASE, so the
haystack is lowered and the literals are written in lower case).  In
`r"grep.*react|next|vue|angular|express"` and
`r"ls.*angular\.json|vue\.config|next\.config"` the alternation spans the
whole branches, so a bare `next` / `vue.config` etc. already matches. -/
def framework_detection_match (s0 : String) : Bool :=
  let s := s0.toLower
  reSearch [.lit "cat", .plus isPySpace, .lit "package.json"] s ||
  (reSearch [.lit "grep", .star isNotNl, .lit "react"] s ||
    pyIn "next" s || pyIn "vue" s || pyIn "angular" s || pyIn "express" s) ||
  (reSearch [.lit "ls", .star isNotNl, .lit "angular.json"] s ||
    pyIn "vue.config" s || pyIn "next.config" s)

def fwMentions : List String := ["react", "next", "vue", "angular", "express"]

/-- `check_framework_detected` (auth0_quickstart.py lines 55-90). -/
def check_framework_detected (t : ExecutionTrace) : GraderResult :=
  match t.commands.find? (fun c => framework_detection_match (cmdStr c)) with
  | some c =>
    { name := "framework_detected", passed := true,
      message := "Framework detection step performed",
      details := [("command", .jstr (cmdStr c))] }
  | none =>
    match t.outputs.findSome? (fun o =>
      fwMentions.find? (fun fw =>
        pyIn fw o.toLower && pyIn "detected" o.toLower)) with
    | some fw =>
      { name := "framework_detected", passed := true,
        message := "Framework " ++ fw ++ " detected in output" }
    | none =>
      { name := "framework_detected", passed := false,
        message := "No framework detection step found in trace" }

/-- Install patterns of `check_cli_installed` (IGNORECASE). -/
def cli_install_match (s0 : String) : Bool :=
  let s := s0.toLower
  reSearch [.lit "brew", .plus isPySpace, .lit "install", .star isNotNl, .lit "auth0"] s ||
  reSearch [.lit "scoop", .plus isPySpace, .lit "install", .plus isPySpace, .lit "auth0"] s ||
  reSearch [.lit "choco", .plus isPySpace, .lit "install", .plus isPySpace, .lit "auth0"] s ||
  reSearch [.lit "auth0", .plus isPySpace, .lit "--version"] s ||
  reSearch [.lit "which", .plus isPySpace, .lit "auth0"] s ||
  reSearch [.lit "command", .plus isPySpace, .lit "-v", .plus isPySpace, .lit "auth0"] s

/-- `check_cli_installed` (auth0_quickstart.py lines 92-118). -/
def check_cli_installed (t : ExecutionTrace) : GraderResult :=
  match t.commands.find? (fun c => cli_install_match (cmdStr c)) with
  | some c =>
    { name := "cli_installed", passed := true,
      message := "Auth0 CLI installation/verification found",
      details := [("command", .jstr (cmdStr c))] }
  | none =>
    { name := "cli_installed", passed := false,
      message := "No Auth0 CLI installation or verification found" }

/-- `check_cli_logged_in` (auth0_quickstart.py lines 120-136),
pattern `auth0\s+login` (case sensitive). -/
def check_cli_logged_in (t : ExecutionTrace) : GraderResult :=
  match t.commands.find? (fun c =>
    reSearch [.lit "auth0", .plus isPySpace, .lit "login"] (cmdStr c)) with
  | some c =>
    { name := "cli_logged_in", passed := true,
      message := "auth0 login command executed",
      details := [("command", .jstr (cmdStr c))] }
  | none =>
    { name := "cli_logged_in", passed := false,
      message := "auth0 login command not found in trace" }

/-- `check_app_created` (auth0_quickstart.py lines 138-154),
pattern `auth0\s+apps\s+create`. -/
def check_app_created (t : ExecutionTrace) : GraderResult :=
  match t.commands.find? (fun c =>
    reSearch [.lit "auth0", .plus isPySpace, .lit "apps", .plus isPySpace,
      .lit "create"] (cmdStr c)) with
  | some c =>
    { name := "app_created", passed := true,
      message := "auth0 apps create command executed",
      details := [("command", .jstr (cmdStr c))] }
  | none =>
    { name := "app_created", passed := false,
      message := "auth0 apps create command not found in trace" }

/-- Pattern of `check_metadata_present`: `--metadata`, whitespace, then
`created_by=agent_skills` optionally wrapped in single or double quotes. -/
def metadata_pat : List Tok :=
  [.lit "--metadata", .plus isPySpace, .optc isQuoteChar,
   .lit "created_by=agent_skills", .optc isQuoteChar]

/-- `check_metadata_present` (auth0_quickstart.py lines 156-182): decided
on the first command containing the substring `auth0 apps create`. -/
def check_metadata_present (t : ExecutionTrace) : GraderResult :=
  match t.commands.find? (fun c => pyIn "auth0 apps create" (cmdStr c)) with
  | some c =>
    if reSearch metadata_pat (cmdStr c) then
      { name := "metadata_present", passed := true,
        message := "Instrumentation metadata present in create command",
        details := [("command", .jstr (cmdStr c))] }
    else
      { name := "metadata_present", passed := false,
        message := "auth0 apps create found but missing --metadata 'created_by=agent_skills'",
        details := [("command", .jstr (cmdStr c))] }
  | none =>
    { name := "metadata_present", passed := false,
      message := "auth0 apps create command not found" }

/-- Group 1 of the first match of `--type\s+(\w+)`: at the first position
where the literal is followed by at least one space and one word
character, the (greedy) word run after the (greedy) space run; positions
where the tail fails are skipped exactly as the regex engine does. -/
def extractTypeArg : List Char → Option String
  | [] => none
  | c :: rest =>
    if ("--type".toList).isPrefixOf (c :: rest) then
      let after := (c :: rest).drop 6
      let sp := after.takeWhile isPySpace
      if sp.isEmpty then extractTypeArg rest
      else
        let w := (after.drop sp.length).takeWhile isPyWord
        if w.isEmpty then extractTypeArg rest else some (String.mk w)
    else extractTypeArg rest

def type_map : List (String × List String) :=
  [("spa", ["spa", "single page application"]),
   ("regular", ["regular", "regular web application"]),
   ("native", ["native"])]

/-- `check_app_type_correct` (auth0_quickstart.py lines 184-219): a create
command without a `--type` match does NOT decide the check — the loop
falls through to later commands. -/
def check_app_type_correct (t : ExecutionTrace)
    (expected_type : String := "spa") : GraderResult :=
  let expected_values := (type_map.lookup expected_type).getD [expected_type]
  match t.commands.findSome? (fun c =>
    if pyIn "auth0 apps create" (cmdStr c) then
      match extractTypeArg (cmdStr c).toList with
      | some w =>
        let actual := w.toLower
        if expected_values.contains actual then
          some { name := "app_type_correct", passed := true,
                 message := "Correct application type: " ++ actual,
                 details := [("expected", .jstr expected_type),
                             ("actual", .jstr actual)] }
        else
          some { name := "app_type_correct", passed := false,
                 message := "Wrong application type: " ++ actual ++
                   " (expected " ++ expected_type ++ ")",
                 details := [("expected", .jstr expected_type),
                             ("actual", .jstr actual)] }
      | none => none
    else none) with
  | some r => r
  | none =>
    { name := "app_type_correct", passed := false,
      message := "Application type not specified in create command" }

/-- `check_callbacks_configured` (auth0_quickstart.py lines 221-253):
decided on the first command containing `auth0 apps create`; both flags
pass, `--callbacks` alone gets its own failure message, and every other
case — including `--logout-urls` alone — gets "Callback URLs not
configured". -/
def check_callbacks_configured (t : ExecutionTrace) : GraderResult :=
  match t.commands.find? (fun c => pyIn "auth0 apps create" (cmdStr c)) with
  | some c =>
    let s := cmdStr c
    if pyIn "--callbacks" s && pyIn "--logout-urls" s then
      { name := "callbacks_configured", passed := true,
        message := "Callback and logout URLs configured",
        details := [("command", .jstr s)] }
    else if pyIn "--callbacks" s then
      { name := "callbacks_configured", passed := false,
        message := "Callback URLs configured but logout URLs missing" }
    else
      { name := "callbacks_configured", passed := false,
        message := "Callback URLs not configured" }
  | none =>
    { name := "callbacks_configured", passed := false,
      message := "auth0 apps create command not found" }

/-- Pattern `auth0\s+apps\s+(show|list)` of `check_credentials_captured`. -/
def show_list_match (s : String) : Bool :=
  reSearch [.lit "auth0", .plus isPySpace, .lit "apps", .plus isPySpace,
    .lit "show"] s ||
  reSearch [.lit "auth0", .plus isPySpace, .lit "apps", .plus isPySpace,
    .lit "list"] s

/-- `check_credentials_captured` (auth0_quickstart.py lines 255-291). -/
def check_credentials_captured (t : ExecutionTrace) : GraderResult :=
  let show_commands := (t.commands.map cmdStr).filter show_list_match
  if !show_commands.isEmpty then
    { name := "credentials_captured", passed := true,
      message := "Credentials retrieval commands found",
      details := [("commands", .jarr (show_commands.map .jstr))] }
  else
    let auth0_env_vars := (t.env_vars_set.map Prod.fst).filter (fun k =>
      pyIn "AUTH0" k.toUpper || pyIn "DOMAIN" k.toUpper ||
        pyIn "CLIENT" k.toUpper)
    if !auth0_env_vars.isEmpty then
      { name := "credentials_captured", passed := true,
        message := "Auth0 credentials set as environment variables",
        details := [("env_vars", .jarr (auth0_env_vars.map .jstr))] }
    else
      { name := "credentials_captured", passed := false,
        message := "No credentials retrieval or storage found" }

/-- `Auth0QuickstartGrader.run_all` (auth0_quickstart.py lines 42-53). -/
def run_all (t : ExecutionTrace) : List GraderResult :=
  [check_framework_detected t, check_cli_installed t, check_cli_logged_in t,
   check_app_created t, check_metadata_present t, check_app_type_correct t,
   check_callbacks_configured t, check_credentials_captured t]

end Auth0QuickstartGrader

def traceLogoutOnly : ExecutionTrace :=
  { commands :=
      [[("command", "auth0 apps create --type spa --logout-urls http://localhost:3000/")]],
    files_modified := [], files_created := [], env_vars_set := [],
    outputs := [] }

def traceNeither : ExecutionTrace :=
  { commands := [[("command", "auth0 apps create --type spa")]],
    files_modified := [], files_created := [], env_vars_set := [],
    outputs := [] }

/-- C5 counterexample: a create command carrying exactly one of the two
required flags — namely `--logout-urls` without `--callbacks` — produces
the very same message "Callback URLs not configured" as a create command
carrying neither flag, because the `elif` chain only distinguishes the
`--callbacks`-only case.  So "exactly one flag implies a distinct message"
is false. -/
theorem callbacks_one_flag_counterexample :
    pyIn "--callbacks"
      "auth0 apps create --type spa --logout-urls http://localhost:3000/" = false ∧
    pyIn "--logout-urls"
      "auth0 apps create --type spa --logout-urls http://localhost:3000/" = true ∧
    (Auth0QuickstartGrader.check_callbacks_configured traceLogoutOnly).message =
      (Auth0QuickstartGrader.check_callbacks_configured traceNeither).message :=
  ⟨by decide, by decide, rfl⟩

/-- C5 (amended): on the first `auth0 apps create` command of the trace,
carrying `--callbacks` without `--logout-urls` fails with the message
"Callback URLs configured but logout URLs missing", distinct from the
"Callback URLs not configured" message of the neither-flag case; carrying
only `--logout-urls` (no `--callbacks`) produces the same message as the
neither-flag case. -/
theorem callbacks_flag_messages (t : ExecutionTrace) (c : PyDict)
    (hfind : t.commands.find?
      (fun c => pyIn "auth0 apps create" (cmdStr c)) = some c) :
    (pyIn "--callbacks" (cmdStr c) = true →
      pyIn "--logout-urls" (cmdStr c) = false →
      (Auth0QuickstartGrader.check_callbacks_configured t).passed = false ∧
      (Auth0QuickstartGrader.check_callbacks_configured t).message =
        "Callback URLs configured but logout URLs missing" ∧
      (Auth0QuickstartGrader.check_callbacks_configured t).message ≠
        "Callback URLs not configured") ∧
    (pyIn "--callbacks" (cmdStr c) = false →
      (Auth0QuickstartGrader.check_callbacks_configured t).passed = false ∧
      (Auth0QuickstartGrader.check_callbacks_configured t).message =
        "Callback URLs not configured") := by
  constructor
  · intro h1 h2
    simp [Auth0QuickstartGrader.check_callbacks_configured, hfind, h1, h2]
  · intro h1
    simp [Auth0QuickstartGrader.check_callbacks_configured, hfind, h1]

def traceCallbacksOnly : ExecutionTrace :=
  { commands :=
      [[("command", "auth0 apps create --callbacks http://localhost:3000/callback")]],
    files_modified := [], files_created := [], env_vars_set := [],
    outputs := [] }

theorem callbacks_flag_messages_witness :
    (Auth0QuickstartGrader.check_callbacks_configured traceCallbacksOnly).message =
      "Callback URLs configured but logout URLs missing" :=
  ((callbacks_flag_messages traceCallbacksOnly
      [("command", "auth0 apps create --callbacks http://localhost:3000/callback")]
      rfl).1 (by decide) (by decide)).2.1

/-- One per-test-case entry of a persisted report, as read back by
`compare_reports` (`run_eval.py` lines 745-753): only `test_case_id`,
`passed` and `score` are consulted. -/
structure ResultRec where
  test_case_id : String
  passed : Bool
  score : Rat
deriving DecidableEq, Repr

/-- One entry of the `changes` list built by `compare_reports`
(run_eval.py lines 756-762). -/
structure ChangeRec where
  test_case_id : String
  was_passing : Bool
  now_passing : Bool
  score_delta : Rat
  change : String
deriving DecidableEq, Repr

/-- The fields of a persisted report document that `compare_reports`
reads. -/
structure ReportDoc where
  timestamp : String
  mode : String
  pass_rate : Rat
  avg_score : Rat
  results : List ResultRec
deriving DecidableEq, Repr

/-- The dict comprehension `{r["test_case_id"]: r for r in results}`:
later duplicate ids overwrite earlier ones, so the lookup takes the last
occurrence. -/
def resultsDict (rs : List ResultRec) (id : String) : Option ResultRec :=
  rs.reverse.find? (fun r => r.test_case_id == id)

/-- `results_x.get(test_id, {}).get("passed", False)`. -/
def recPassed (rs : List ResultRec) (id : String) : Bool :=
  ((resultsDict rs id).map (fun r => r.passed)).getD false

/-- `results_x.get(test_id, {}).get("score", 0)`. -/
def recScore (rs : List ResultRec) (id : String) : Rat :=
  ((resultsDict rs id).map (fun r => r.score)).getD 0

/-- The comparison document assembled by `compare_reports` (run_eval.py
lines 716-765); the path/timestamp echo fields are plain I/O plumbing and
are not modelled. -/
structure Comparison where
  pass_rate_delta : Rat
  avg_score_delta : Rat
  improved : Bool
  regressed : Bool
  changes : List ChangeRec

/-- Union of test-case ids of both reports
(`set(results_a.keys()) | set(results_b.keys())`); the Python set order is
unspecified, so only membership in `changes` is claimed downstream. -/
def changeIds (ra rb : List ResultRec) : List String :=
  ((ra.map (fun r => r.test_case_id)) ++ (rb.map (fun r => r.test_case_id))).dedup

/-- `compare_reports` (run_eval.py lines 716-765). -/
def compare_reports (a b : ReportDoc) : Comparison :=
  { pass_rate_delta := b.pass_rate - a.pass_rate,
    avg_score_delta := b.avg_score - a.avg_score,
    improved := decide (a.pass_rate < b.pass_rate),
    regressed := decide (b.pass_rate < a.pass_rate),
    changes := (changeIds a.results b.results).filterMap (fun id =>
      let ap := recPassed a.results id
      let bp := recPassed b.results id
      let asc := recScore a.results id
      let bsc := recScore b.results id
      if ap ≠ bp ∨ |asc - bsc| > 1/10 then
        some { test_case_id := id, was_passing := ap, now_passing := bp,
               score_delta := bsc - asc,
               change := if bp && !ap then "improved"
                 else if !bp && ap then "regressed"
                 else "score_change" }
      else none) }

/-- Helper: an id absent from a result list is absent from its id-keyed
dict. -/
theorem resultsDict_eq_none (rs : List ResultRec) (id : String)
    (h : id ∉ rs.map (fun r => r.test_case_id)) : resultsDict rs id = none := by
  rw [resultsDict, List.find?_eq_none]
  intro r hr
  simp only [List.mem_reverse] at hr
  simp only [beq_iff_eq]
  intro heq
  exact h (List.mem_map.mpr ⟨r, hr, heq⟩)

/-- C6: for every test-case id present in either report, a failed-to-passed
transition yields an "improved" change entry, passed-to-failed yields
"regressed", and an absolute score delta above 0.1 with unchanged pass
status yields "score_change"; an id missing from one report is compared
against the implicit baseline `passed = False`, `score = 0` on that side. -/
theorem compare_changes_spec (a b : ReportDoc) (id : String)
    (hmem : id ∈ a.results.map (fun r => r.test_case_id) ∨
      id ∈ b.results.map (fun r => r.test_case_id)) :
    (recPassed a.results id = false → recPassed b.results id = true →
      ∃ e ∈ (compare_reports a b).changes,
        e.test_case_id = id ∧ e.change = "improved") ∧
    (recPassed a.results id = true → recPassed b.results id = false →
      ∃ e ∈ (compare_reports a b).changes,
        e.test_case_id = id ∧ e.change = "regressed") ∧
    (recPassed a.results id = recPassed b.results id →
      |recScore a.results id - recScore b.results id| > 1/10 →
      ∃ e ∈ (compare_reports a b).changes,
        e.test_case_id = id ∧ e.change = "score_change") ∧
    (id ∉ a.results.map (fun r => r.test_case_id) →
      recPassed a.results id = false ∧ recScore a.results id = 0) ∧
    (id ∉ b.results.map (fun r => r.test_case_id) →
      recPassed b.results id = false ∧ recScore b.results id = 0) := by
  have hid : id ∈ changeIds a.results b.results := by
    rw [changeIds, List.mem_dedup]
    exact List.mem_append.mpr hmem
  refine ⟨?_, ?_, ?_, ?_, ?_⟩
  · intro h1 h2
    refine ⟨{ test_case_id := id, was_passing := false, now_passing := true,
              score_delta := recScore b.results id - recScore a.results id,
              change := "improved" },
      List.mem_filterMap.mpr ⟨id, hid, ?_⟩, rfl, rfl⟩
    simp [h1, h2]
  · intro h1 h2
    refine ⟨{ test_case_id := id, was_passing := true, now_passing := false,
              score_delta := recScore b.results id - recScore a.results id,
              change := "regressed" },
      List.mem_filterMap.mpr ⟨id, hid, ?_⟩, rfl, rfl⟩
    simp [h1, h2]
  · intro h1 h2
    refine ⟨{ test_case_id := id, was_passing := recPassed b.results id,
              now_passing := recPassed b.results id,
              score_delta := recScore b.results id - recScore a.results id,
              change := "score_change" },
      List.mem_filterMap.mpr ⟨id, hid, ?_⟩, rfl, rfl⟩
    simp only [gt_iff_lt, one_div] at h2
    simp [h1, h2]
  · intro h
    simp [recPassed, recScore, resultsDict_eq_none a.results id h]
  · intro h
    simp [recPassed, recScore, resultsDict_eq_none b.results id h]

def reportDocA : ReportDoc :=
  { timestamp := "20250101-000000", mode := "dry-run", pass_rate := 0,
    avg_score := 0,
    results := [ { test_case_id := "t1", passed := false, score := 0 } ] }

def reportDocB : ReportDoc :=
  { timestamp := "20250102-000000", mode := "dry-run", pass_rate := 1,
    avg_score := 1,
    results := [ { test_case_id := "t1", passed := true, score := 1 } ] }

theorem compare_changes_spec_witness :
    ∃ e ∈ (compare_reports reportDocA reportDocB).changes,
      e.test_case_id = "t1" ∧ e.change = "improved" :=
  (compare_changes_spec reportDocA reportDocB "t1"
    (Or.inl (by decide))).1 rfl rfl

/-- One leaderboard entry of `merge_scores` (run_eval.py lines 780-788);
the same fields are what `merge_scores` reads from each report file. -/
structure LeaderEntry where
  skill : String
  mode : String
  pass_rate : Rat
  avg_score : Rat
  total_tests : Nat
  timestamp : String
deriving DecidableEq, Repr

/-- The dict key `f"\x7bskill\x7d-\x7bmode\x7d"` used by `merge_scores`:
a plain string concatenation, NOT the pair (skill, mode). -/
def mergeKey (r : LeaderEntry) : String := r.skill ++ "-" ++ r.mode

/-- The insertion-ordered dict `all_results` of `merge_scores`: a report
whose key was already inserted is skipped (`if key not in all_results`),
so the first file encountered wins.  `seen` is the set of keys inserted so
far (initially empty). -/
def allResults (seen : List String) : List LeaderEntry → List (String × LeaderEntry)
  | [] => []
  | r :: rest =>
    if seen.contains (mergeKey r) then allResults seen rest
    else (mergeKey r, r) :: allResults (mergeKey r :: seen) rest

/-- `merge_scores` (run_eval.py lines 768-796) with the file I/O stripped:
builds the first-seen-wins dict and sorts its values by `avg_score`
descending (Python `sorted` with `reverse=True` is a stable sort; a stable
insertion sort models it). -/
def merge_scores (reports : List LeaderEntry) : List LeaderEntry :=
  List.insertionSort (fun x y => y.avg_score ≤ x.avg_score)
    ((allResults [] reports).map Prod.snd)

/-- Helper: keys already recorded as seen produce no further entries. -/
theorem allResults_filter_seen (l : List LeaderEntry) :
    ∀ seen k, k ∈ seen →
      ((allResults seen l).map Prod.snd).filter (fun e => mergeKey e == k) = [] := by
  induction l with
  | nil => intro seen k _; rfl
  | cons x rest ih =>
    intro seen k hk
    by_cases hc : mergeKey x ∈ seen
    · simp only [allResults]
      rw [if_pos (List.elem_eq_true_of_mem hc)]
      exact ih seen k hk
    · have hne : ¬(mergeKey x == k) = true := by
        intro h
        rw [beq_iff_eq] at h
        exact hc (h ▸ hk)
      simp only [allResults]
      rw [if_neg (by simpa using hc)]
      simp only [List.map_cons, List.filter_cons, hne]
      simp only [Bool.false_eq_true, if_false]
      exact ih (mergeKey x :: seen) k (List.mem_cons_of_mem _ hk)

/-- Helper: for a key not yet seen, the entries with that key are exactly
the first report of the remaining list carrying it. -/
theorem allResults_filter_first (l : List LeaderEntry) :
    ∀ seen k r, k ∉ seen →
      l.find? (fun x => mergeKey x == k) = some r →
      ((allResults seen l).map Prod.snd).filter (fun e => mergeKey e == k) = [r] := by
  induction l with
  | nil => intro seen k r _ hfind; simp at hfind
  | cons x rest ih =>
    intro seen k r hk hfind
    by_cases hx : (mergeKey x == k) = true
    · rw [@List.find?_cons_of_pos LeaderEntry (fun x => mergeKey x == k) x rest hx] at hfind
      injection hfind with hxr
      subst hxr
      rw [beq_iff_eq] at hx
      subst hx
      by_cases hc : mergeKey x ∈ seen
      · exact absurd hc hk
      · simp only [allResults]
        rw [if_neg (by simpa using hc)]
        simp only [List.map_cons, List.filter_cons, beq_self_eq_true, if_pos]
        rw [allResults_filter_seen rest (mergeKey x :: seen) (mergeKey x)
          (List.mem_cons_self _ _)]
    · rw [@List.find?_cons_of_neg LeaderEntry (fun x => mergeKey x == k) x rest hx] at hfind
      by_cases hc : mergeKey x ∈ seen
      · simp only [allResults]
        rw [if_pos (List.elem_eq_true_of_mem hc)]
        exact ih seen k r hk hfind
      · have hk' : k ∉ mergeKey x :: seen := by
          intro hmem
          rcases List.mem_cons.mp hmem with h | h
          · exact hx (by rw [beq_iff_eq, h])
          · exact hk h
        simp only [allResults]
        rw [if_neg (by simpa using hc)]
        simp only [List.map_cons, List.filter_cons, hx]
        simp only [Bool.false_eq_true, if_false]
        exact ih (mergeKey x :: seen) k r hk' hfind

/-- Helper: every dict value comes from the input report list. -/
theorem allResults_mem (l : List LeaderEntry) :
    ∀ seen e, e ∈ (allResults seen l).map Prod.snd → e ∈ l := by
  induction l with
  | nil => intro seen e h; simp [allResults] at h
  | cons x rest ih =>
    intro seen e h
    by_cases hc : mergeKey x ∈ seen
    · simp only [allResults] at h
      rw [if_pos (List.elem_eq_true_of_mem hc)] at h
      exact List.mem_cons_of_mem _ (ih seen e h)
    · simp only [allResults] at h
      rw [if_neg (by simpa using hc)] at h
      simp only [List.map_cons, List.mem_cons] at h
      rcases h with h | h
      · exact h ▸ List.mem_cons_self _ _
      · exact List.mem_cons_of_mem _ (ih (mergeKey x :: seen) e h)

/-- C7 (amended): the leaderboard produced by `merge_scores` has exactly
one entry per distinct concatenated `skill ++ "-" ++ mode` key present in
the input (NOT per distinct (skill, mode) pair — hyphenated names can make
distinct pairs collide), the kept entry is the one of the first file
carrying that key, every entry stems from some input file, and the
leaderboard is pairwise sorted by average score in descending order. -/
theorem merge_scores_spec (reports : List LeaderEntry) :
    (∀ k r, reports.find? (fun x => mergeKey x == k) = some r →
      (merge_scores reports).filter (fun e => mergeKey e == k) = [r]) ∧
    (∀ e ∈ merge_scores reports, ∃ r ∈ reports, mergeKey r = mergeKey e) ∧
    (merge_scores reports).Pairwise (fun x y => y.avg_score ≤ x.avg_score) := by
  refine ⟨?_, ?_, ?_⟩
  · intro k r hfind
    have hperm := (List.perm_insertionSort
      (fun x y : LeaderEntry => y.avg_score ≤ x.avg_score)
      ((allResults [] reports).map Prod.snd)).filter (fun e => mergeKey e == k)
    rw [allResults_filter_first reports [] k r (by simp) hfind] at hperm
    exact List.perm_singleton.mp hperm
  · intro e he
    have hmem : e ∈ (allResults [] reports).map Prod.snd :=
      (List.perm_insertionSort
        (fun x y : LeaderEntry => y.avg_score ≤ x.avg_score)
        ((allResults [] reports).map Prod.snd)).mem_iff.mp he
    exact ⟨e, allResults_mem reports [] e hmem, rfl⟩
  · haveI : IsTotal LeaderEntry (fun x y => y.avg_score ≤ x.avg_score) :=
      ⟨fun a b => le_total b.avg_score a.avg_score⟩
    haveI : IsTrans LeaderEntry (fun x y => y.avg_score ≤ x.avg_score) :=
      ⟨fun _ _ _ h1 h2 => le_trans h2 h1⟩
    exact List.sorted_insertionSort _ _

def reportHyphenA : LeaderEntry :=
  { skill := "auth0-react", mode := "agent", pass_rate := 1, avg_score := 1,
    total_tests := 4, timestamp := "20250101-000000" }

def reportHyphenB : LeaderEntry :=
  { skill := "auth0", mode := "react-agent", pass_rate := 0, avg_score := 0,
    total_tests := 2, timestamp := "20250102-000000" }

/-- C7 counterexample: two reports carrying DISTINCT (skill, mode) pairs
whose concatenated keys collide ("auth0-react" + "-" + "agent" and
"auth0" + "-" + "react-agent" are both "auth0-react-agent"): the merged
leaderboard holds a single entry and none at all for the second pair, so
"exactly one entry per distinct (skill, mode) key" fails. -/
theorem merge_key_collision_counterexample :
    (reportHyphenA.skill, reportHyphenA.mode) ≠
      (reportHyphenB.skill, reportHyphenB.mode) ∧
    mergeKey reportHyphenA = mergeKey reportHyphenB ∧
    (merge_scores [reportHyphenA, reportHyphenB]).length = 1 ∧
    (∀ e ∈ merge_scores [reportHyphenA, reportHyphenB],
      ¬(e.skill = "auth0" ∧ e.mode = "react-agent")) := by decide

def mergeWitnessR1 : LeaderEntry :=
  { skill := "auth0-react", mode := "dry-run", pass_rate := 0,
    avg_score := 0, total_tests := 4, timestamp := "20250101-000000" }

def mergeWitnessR2 : LeaderEntry :=
  { skill := "auth0-react", mode := "dry-run", pass_rate := 1,
    avg_score := 1, total_tests := 4, timestamp := "20250102-000000" }

theorem merge_scores_spec_witness :
    (merge_scores [mergeWitnessR1, mergeWitnessR2]).filter
      (fun e => mergeKey e == "auth0-react-dry-run") = [mergeWitnessR1] :=
  (merge_scores_spec [mergeWitnessR1, mergeWitnessR2]).1
    "auth0-react-dry-run" mergeWitnessR1 (by decide)

/-- Project directory state seen by the static grader: relative file path
(with `/` separators, relative to the project directory) mapped to the
file's text.  `find_files dir suffix` models `(project_dir / dir).glob`
with a `**/*<suffix>` pattern; glob's enumeration order is the (fixed)
directory order, modelled by the list order of the state. -/
abbrev ProjectFS := List (String × String)

/-- `graders/common.py`, `read_file`: file text, `None` when absent. -/
def read_file (fs : ProjectFS) (p : String) : Option String := fs.lookup p

/-- `graders/common.py`, `check_file_contains` (substring mode, the only
mode the react grader uses). -/
def check_file_contains (fs : ProjectFS) (p : String) (pat : String) : Bool :=
  match read_file fs p with
  | none => false
  | some c => pyIn pat c

/-- `graders/common.py`, `find_files(directory, "**/*" ++ suffix)`. -/
def find_files (fs : ProjectFS) (dir : String) (suffix : String) : List String :=
  (fs.map Prod.fst).filter
    (fun p => p.startsWith (dir ++ "/") && p.endsWith suffix)

/-- `graders/common.py`, `read_json_file`, parameterised over `json.loads`
(`loads` returns `none` for invalid JSON; a missing file is also `none`).
The top-level value of a `package.json` is an object. -/
def read_json_file (loads : String → Option JObj) (fs : ProjectFS)
    (p : String) : Option JObj :=
  (read_file fs p).bind loads

/-- `graders/common.py`, `check_package_dependency`. -/
def check_package_dependency (loads : String → Option JObj) (fs : ProjectFS)
    (package_name : String) (dev : Bool := false) : Bool :=
  match read_json_file loads fs "package.json" with
  | none => false
  | some pj =>
    let deps_key := if dev then "devDependencies" else "dependencies"
    match (pj.lookup deps_key).getD (.jobj []) with
    | .jobj deps => (deps.map Prod.fst).contains package_name
    | _ => false

/-- `re.findall` for the pattern "literal prefix followed by a `(\w+)`
group": scans left to right, non-overlapping (continues after the matched
group); a position where the prefix matches but no word character follows
is advanced by one character, as the regex engine does. -/
def scanGroups (pre : List Char) : List Char → List String
  | [] => []
  | c :: rest =>
    if pre.isPrefixOf (c :: rest) then
      let after := (c :: rest).drop pre.length
      let run := after.takeWhile isPyWord
      if h : run.isEmpty then scanGroups pre rest
      else String.mk run :: scanGroups pre (after.drop run.length)
    else scanGroups pre rest
termination_by cs => cs.length
decreasing_by
  · simp
  · simp only [List.isEmpty_iff] at h
    simp only [List.length_drop, List.length_cons]
    have h1 : 0 < (((c :: rest).drop pre.length).takeWhile isPyWord).length :=
      List.length_pos.mpr h
    omega
  · simp

/-- `graders/common.py`, `extract_env_vars_from_file`: the groups of
`import\.meta\.env\.(\w+)` followed by the groups of
`process\.env\.(\w+)`. -/
def extract_env_vars_from_file (fs : ProjectFS) (p : String) : List String :=
  match read_file fs p with
  | none => []
  | some content =>
    scanGroups ("import.meta.env.".toList) content.toList ++
      scanGroups ("process.env.".toList) content.toList

/-- A `=` or `:` character, the class `[=:]` of the secret patterns. -/
def isEqColon (c : Char) : Bool := c == '=' || c == ':'

/-- Does the text match any of the five hardcoded-secret patterns of
`check_no_secrets_in_source` (all searched with IGNORECASE: the haystack
is lowered, literals are written lower-case)? -/
def secret_match (s0 : String) : Bool :=
  let s := s0.toLower
  reSearch [.lit "client", .optc (fun c => c == '_'), .lit "secret",
    .star isPySpace, .one isEqColon, .star isPySpace, .one isQuoteChar,
    .plus (fun c => !isQuoteChar c), .one isQuoteChar] s ||
  reSearch [.lit "clientsecret", .star isPySpace, .one isEqColon,
    .star isPySpace, .one isQuoteChar, .plus (fun c => !isQuoteChar c),
    .one isQuoteChar] s ||
  reSearch [.lit "auth0_secret", .star isPySpace, .one isEqColon,
    .star isPySpace, .one isQuoteChar, .plus (fun c => !isQuoteChar c),
    .one isQuoteChar] s ||
  reSearch [.lit "domain", .star isPySpace, .one isEqColon, .star isPySpace,
    .one isQuoteChar, .plus (fun c => c.isLower || c.isDigit || c == '-'),
    .lit ".auth0.com", .one isQuoteChar] s ||
  reSearch [.lit "clientid", .star isPySpace, .one isEqColon, .star isPySpace,
    .one isQuoteChar, .rep (fun c => c.isAlphanum) 32, .one isQuoteChar] s

/-- `graders/common.py`, `check_no_secrets_in_source`: `(passed, files)`
where `files` lists EVERY source file matching some secret pattern. -/
def check_no_secrets_in_source (fs : ProjectFS) : Bool × List String :=
  let source_files := find_files fs "src" ".tsx" ++ find_files fs "src" ".ts"
  let files_with_secrets := source_files.filter (fun p =>
    match read_file fs p with
    | none => false
    | some content => secret_match content)
  (files_with_secrets.isEmpty, files_with_secrets)

namespace Auth0ReactGrader

/-- The fixed ordered entry-file candidate list used by several checks. -/
def entry_files : List String :=
  ["src/main.tsx", "src/index.tsx", "src/main.jsx", "src/index.jsx"]

/-- `check_sdk_installed` (auth0_react.py lines 40-49). -/
def check_sdk_installed (loads : String → Option JObj) (fs : ProjectFS) :
    GraderResult :=
  let passed := check_package_dependency loads fs "@auth0/auth0-react"
  { name := "sdk_installed", passed := passed,
    message :=
      if passed then "@auth0/auth0-react found in dependencies"
      else "@auth0/auth0-react not found in package.json dependencies" }

/-- `check_provider_wrapped` (auth0_react.py lines 51-75): first entry file
containing `Auth0Provider` AND one of the two import spellings wins; a
file containing the provider without the import is skipped, not failed. -/
def check_provider_wrapped (fs : ProjectFS) : GraderResult :=
  match entry_files.findSome? (fun ef =>
    if check_file_contains fs ef "Auth0Provider" then
      if check_file_contains fs ef "from '@auth0/auth0-react'" ||
          check_file_contains fs ef "from \"@auth0/auth0-react\"" then
        some { name := "provider_wrapped", passed := true,
               message := "Auth0Provider found wrapping app in " ++ ef,
               details := [("file", .jstr ef)] }
      else none
    else none) with
  | some r => r
  | none =>
    { name := "provider_wrapped", passed := false,
      message := "Auth0Provider not found wrapping the application" }

/-- `check_env_vars_correct` (auth0_react.py lines 77-133). -/
def check_env_vars_correct (fs : ProjectFS) : GraderResult :=
  let entry := find_files fs "src" ".tsx" ++ find_files fs "src" ".ts"
  let uses_vite := (read_file fs "vite.config.ts").isSome ||
    (read_file fs "vite.config.js").isSome
  let prefix_expected := if uses_vite then "VITE_" else "REACT_APP_"
  let prefix_wrong := if uses_vite then "REACT_APP_" else "VITE_"
  match entry.findSome? (fun fp =>
    ((extract_env_vars_from_file fs fp).find?
        (fun v => prefix_wrong.isPrefixOf v)).map (fun v =>
      { name := "env_vars_correct", passed := false,
        message := "Wrong env var prefix: " ++ v ++ " (should use " ++
          prefix_expected ++ ")",
        details := [("file", .jstr fp), ("variable", .jstr v),
                    ("expected_prefix", .jstr prefix_expected)] })) with
  | some r => r
  | none =>
    let auth0_vars_found := entry.any (fun fp =>
      match read_file fs fp with
      | none => false
      | some content =>
        pyIn (prefix_expected ++ "AUTH0") content ||
          pyIn ("import.meta.env." ++ prefix_expected) content)
    if !auth0_vars_found then
      match entry.findSome? (fun fp =>
        match read_file fs fp with
        | none => none
        | some content =>
          if pyIn "AUTH0_DOMAIN" content || pyIn "AUTH0_CLIENT_ID" content then
            some { name := "env_vars_correct", passed := false,
                   message := "Auth0 env vars found but without " ++
                     prefix_expected ++ " prefix" }
          else none) with
      | some r => r
      | none =>
        { name := "env_vars_correct", passed := true,
          message := "Environment variables correctly use " ++
            prefix_expected ++ " prefix" }
    else
      { name := "env_vars_correct", passed := true,
        message := "Environment variables correctly use " ++
          prefix_expected ++ " prefix" }

/-- `check_no_hardcoded_credentials` (auth0_react.py lines 135-145). -/
def check_no_hardcoded_credentials (fs : ProjectFS) : GraderResult :=
  let pr := check_no_secrets_in_source fs
  { name := "no_hardcoded_credentials", passed := pr.1,
    message :=
      if pr.1 then "No hardcoded credentials found"
      else "Potential hardcoded credentials in: " ++
        String.intercalate ", " pr.2,
    details := [("files_with_secrets", .jarr (pr.2.map .jstr))] }

/-- The pattern flagging a hardcoded URL: `redirect_uri`, optional
whitespace, a colon, optional whitespace, a quote, then `http`. -/
def redirect_uri_hardcoded_pat : List Tok :=
  [.lit "redirect_uri", .star isPySpace, .one (fun c => c == ':'),
   .star isPySpace, .one isQuoteChar, .lit "http"]

/-- `check_redirect_uri_configured` (auth0_react.py lines 147-180): a file
mentioning `redirect_uri` with neither the good nor the bad pattern is
skipped and later entry files are still consulted. -/
def check_redirect_uri_configured (fs : ProjectFS) : GraderResult :=
  match entry_files.findSome? (fun ef =>
    match read_file fs ef with
    | none => none
    | some content =>
      if pyIn "redirect_uri" content then
        if pyIn "window.location.origin" content then
          some { name := "redirect_uri_configured", passed := true,
                 message := "redirect_uri correctly uses window.location.origin",
                 details := [("file", .jstr ef)] }
        else if reSearch redirect_uri_hardcoded_pat content then
          some { name := "redirect_uri_configured", passed := false,
                 message := "redirect_uri has hardcoded URL instead of window.location.origin",
                 details := [("file", .jstr ef)] }
        else none
      else none) with
  | some r => r
  | none =>
    { name := "redirect_uri_configured", passed := false,
      message := "redirect_uri configuration not found" }

/-- `check_login_component` (auth0_react.py lines 182-201). -/
def check_login_component (fs : ProjectFS) : GraderResult :=
  let source_files := find_files fs "src" ".tsx" ++ find_files fs "src" ".jsx"
  match source_files.find? (fun fp =>
    check_file_contains fs fp "loginWithRedirect") with
  | some fp =>
    { name := "login_component", passed := true,
      message := "Login functionality found using loginWithRedirect",
      details := [("file", .jstr fp)] }
  | none =>
    { name := "login_component", passed := false,
      message := "No login component using loginWithRedirect found" }

/-- `check_logout_component` (auth0_react.py lines 203-225): needs both
`logout(` and `useAuth0` in the same file. -/
def check_logout_component (fs : ProjectFS) : GraderResult :=
  let source_files := find_files fs "src" ".tsx" ++ find_files fs "src" ".jsx"
  match source_files.find? (fun fp =>
    match read_file fs fp with
    | none => false
    | some content => pyIn "logout(" content && pyIn "useAuth0" content) with
  | some fp =>
    { name := "logout_component", passed := true,
      message := "Logout functionality found",
      details := [("file", .jstr fp)] }
  | none =>
    { name := "logout_component", passed := false,
      message := "No logout component found" }

/-- The destructuring pattern
`const\s*\x7b[^\x7d]*\x7d\s*=\s*useAuth0\s*\(\s*\)`. -/
def useauth0_destructure_pat : List Tok :=
  [.lit "const", .star isPySpace, .one (fun c => c.toNat == 123),
   .star (fun c => !(c.toNat == 125)), .one (fun c => c.toNat == 125),
   .star isPySpace, .one (fun c => c == '='), .star isPySpace,
   .lit "useAuth0", .star isPySpace, .one (fun c => c == '('),
   .star isPySpace, .one (fun c => c == ')')]

/-- `check_useauth0_hook_usage` (auth0_react.py lines 227-254). -/
def check_useauth0_hook_usage (fs : ProjectFS) : GraderResult :=
  let source_files := find_files fs "src" ".tsx" ++ find_files fs "src" ".jsx"
  match source_files.find? (fun fp =>
    match read_file fs fp with
    | none => false
    | some content =>
      pyIn "useAuth0" content && reSearch useauth0_destructure_pat content) with
  | some fp =>
    { name := "useauth0_hook_usage", passed := true,
      message := "useAuth0 hook correctly used with destructuring",
      details := [("file", .jstr fp)] }
  | none =>
    { name := "useauth0_hook_usage", passed := false,
      message := "useAuth0 hook not found or not properly used" }

/-- `Auth0ReactGrader.run_all` (auth0_react.py lines 27-38). -/
def run_all (loads : String → Option JObj) (fs : ProjectFS) :
    List GraderResult :=
  [check_sdk_installed loads fs, check_provider_wrapped fs,
   check_env_vars_correct fs, check_no_hardcoded_credentials fs,
   check_redirect_uri_configured fs, check_login_component fs,
   check_logout_component fs, check_useauth0_hook_usage fs]

end Auth0ReactGrader

/-- C8: both graders are pure functions of their evidence alone — the trace
grader of the `ExecutionTrace`, the static grader of the project directory
state (and the JSON parser used for `package.json`); none of their checks
reads a clock, randomness or the network, as every definition above
consumes only these arguments.  Hence grading the same unchanged evidence
twice yields literally identical ordered result lists. -/
theorem run_all_deterministic :
    (∀ t : ExecutionTrace,
      Auth0QuickstartGrader.run_all t = Auth0QuickstartGrader.run_all t) ∧
    (∀ (loads : String → Option JObj) (fs : ProjectFS),
      Auth0ReactGrader.run_all loads fs = Auth0ReactGrader.run_all loads fs) :=
  ⟨fun _ => rfl, fun _ _ => rfl⟩
